import Mathlib

/-!
Verification development for the BOUT++ `Datafile` class
(`src/fileio/datafile.cxx`): a heterogeneous variable registry and
checkpoint serializer.  The C++ code is shallowly embedded: caller-owned
targets (scalars, fields, vectors) live in explicit heaps keyed by an
abstract pointer (`Nat`), the pluggable `DataFormat` backend is a record
of pure oracles, and every backend primitive invocation is logged into a
trace of `BCall` events so that claims about which primitives run (and
with which names and data) can be stated.  Warnings printed through
`output.write` are collected as structured `Warning` records.
-/

namespace BoutDatafile

/-- Abstract model of a `Field2D` domain object: an allocation flag plus an
abstract data payload (the contents of the contiguous buffer; its exact
shape is irrelevant to the serializer, so it is modelled as a single `Int`).
Assignment `*f = 0.0` yields an allocated field with payload `0`. -/
structure Field2D where
  allocated : Bool
  data : Int
  deriving Repr, DecidableEq

/-- Abstract model of a `Field3D` domain object, as for `Field2D`. -/
structure Field3D where
  allocated : Bool
  data : Int
  deriving Repr, DecidableEq

/-- Abstract model of a `Vector2D`: three `Field2D` components and the
`covariant` basis flag. -/
structure Vector2D where
  x : Field2D
  y : Field2D
  z : Field2D
  covariant : Bool
  deriving Repr, DecidableEq

/-- Abstract model of a `Vector3D`: three `Field3D` components and the
`covariant` basis flag. -/
structure Vector3D where
  x : Field3D
  y : Field3D
  z : Field3D
  covariant : Bool
  deriving Repr, DecidableEq

/-- Model of `Field2D::allocate()`: ensures the data buffer exists. -/
def Field2D.allocate (f : Field2D) : Field2D := { f with allocated := true }

/-- Model of `Field3D::allocate()`. -/
def Field3D.allocate (f : Field3D) : Field3D := { f with allocated := true }

/-- One registration record, `VarStr<T>` in `datafile.hxx`: an abstract
pointer to the caller-owned target, the on-disk name, the grow flag, and
(for vector kinds) the covariant flag recorded at `add` time. -/
structure VarStr where
  ptr : Nat
  name : String
  grow : Bool
  covar : Bool
  deriving Repr, DecidableEq

/-- The `Datafile` registry state: the six per-kind binding sequences plus
the `low_prec` and `def_filename` members.  The backend handle (`file`) is
passed explicitly to the drivers. -/
structure Datafile where
  low_prec : Bool
  def_filename : String
  int_arr : List VarStr
  BoutReal_arr : List VarStr
  f2d_arr : List VarStr
  f3d_arr : List VarStr
  v2d_arr : List VarStr
  v3d_arr : List VarStr
  deriving Repr, DecidableEq

/-- Heaps of caller-owned targets, one per value kind, keyed by the
abstract pointer stored in each binding. -/
structure Heaps where
  intH : Nat → Int
  realH : Nat → Int
  f2dH : Nat → Field2D
  f3dH : Nat → Field3D
  v2dH : Nat → Vector2D
  v3dH : Nat → Vector3D

/-- Pointwise heap update (assignment through a registered pointer). -/
def upd {α : Type} (h : Nat → α) (p : Nat) (v : α) : Nat → α :=
  fun q => if q = p then v else h q

/-- Pure-oracle model of the `DataFormat` backend capability: success
predicates for open, validity, per-name read results (`none` = the backend
read primitive failed), and per-name write success flags.  Mesh extents
passed to the array primitives do not affect any claim and are elided. -/
structure DataFormat where
  openr_ok : String → Bool
  openw_ok : String → Bool → Bool
  valid : Bool
  readInt : String → Option Int
  readIntRec : String → Option Int
  readReal : String → Option Int
  readRealRec : String → Option Int
  readF2 : String → Option Int
  readF2Rec : String → Option Int
  readF3 : String → Option Int
  readF3Rec : String → Option Int
  writeIntOk : String → Bool
  writeIntRecOk : String → Bool
  writeRealOk : String → Bool
  writeRealRecOk : String → Bool
  writeF2Ok : String → Bool
  writeF2RecOk : String → Bool
  writeF3Ok : String → Bool
  writeF3RecOk : String → Bool

/-- One backend primitive invocation, recorded in order.  Write events
carry the value handed to the backend. -/
inductive BCall where
  | openr (fname : String)
  | openw (fname : String) (app : Bool)
  | isValid
  | setRecord (i : Int)
  | readI (name : String)
  | readIRec (name : String)
  | readR (name : String)
  | readRRec (name : String)
  | readF2c (name : String)
  | readF2Rc (name : String)
  | readF3c (name : String)
  | readF3Rc (name : String)
  | writeI (name : String) (v : Int)
  | writeIRec (name : String) (v : Int)
  | writeR (name : String) (v : Int)
  | writeRRec (name : String) (v : Int)
  | writeF2c (name : String) (d : Int)
  | writeF2Rc (name : String) (d : Int)
  | writeF3c (name : String) (d : Int)
  | writeF3Rc (name : String) (d : Int)
  | close
  deriving Repr, DecidableEq

/-- A warning emitted through `output.write`, recording the kind word of
the message ("integer", "BoutReal", "2D field", "3D field") and the
variable name it names. -/
structure Warning where
  kind : String
  name : String
  deriving Repr, DecidableEq

/-- Model of the external collaborators `toCovariant` and
`toContravariant` on vectors: the basis conversions are outside this
translation unit, so the write driver is parametric in them. -/
structure GeomEnv where
  toCov2 : Vector2D → Vector2D
  toContra2 : Vector2D → Vector2D
  toCov3 : Vector3D → Vector3D
  toContra3 : Vector3D → Vector3D

/-- Model of `Datafile::varAdded`: linear scan of all six sequences for an
exact name match. -/
def Datafile.varAdded (df : Datafile) (name : String) : Bool :=
  df.int_arr.any (fun it => name == it.name) ||
  df.BoutReal_arr.any (fun it => name == it.name) ||
  df.f2d_arr.any (fun it => name == it.name) ||
  df.f3d_arr.any (fun it => name == it.name) ||
  df.v2d_arr.any (fun it => name == it.name) ||
  df.v3d_arr.any (fun it => name == it.name)

/-- Model of `Datafile::add(int&, const char*, int)`: duplicate names
raise a `BoutException` (here `Except.error`; the C++ message quotes the
name), otherwise one record with `grow = (grow > 0) ? true : false` is
appended to `int_arr`. -/
def Datafile.addInt (df : Datafile) (p : Nat) (name : String) (grow : Int) :
    Except String Datafile :=
  if df.varAdded name then
    .error ("Variable " ++ name ++ " already added to Datafile")
  else
    .ok { df with int_arr :=
      df.int_arr ++ [⟨p, name, if grow > 0 then true else false, false⟩] }

/-- Model of `Datafile::add(BoutReal&, const char*, int)`. -/
def Datafile.addReal (df : Datafile) (p : Nat) (name : String) (grow : Int) :
    Except String Datafile :=
  if df.varAdded name then
    .error ("Variable " ++ name ++ " already added to Datafile")
  else
    .ok { df with BoutReal_arr :=
      df.BoutReal_arr ++ [⟨p, name, if grow > 0 then true else false, false⟩] }

/-- Model of `Datafile::add(Field2D&, const char*, int)`. -/
def Datafile.addF2D (df : Datafile) (p : Nat) (name : String) (grow : Int) :
    Except String Datafile :=
  if df.varAdded name then
    .error ("Variable " ++ name ++ " already added to Datafile")
  else
    .ok { df with f2d_arr :=
      df.f2d_arr ++ [⟨p, name, if grow > 0 then true else false, false⟩] }

/-- Model of `Datafile::add(Field3D&, const char*, int)`. -/
def Datafile.addF3D (df : Datafile) (p : Nat) (name : String) (grow : Int) :
    Except String Datafile :=
  if df.varAdded name then
    .error ("Variable " ++ name ++ " already added to Datafile")
  else
    .ok { df with f3d_arr :=
      df.f3d_arr ++ [⟨p, name, if grow > 0 then true else false, false⟩] }

/-- Model of `Datafile::add(Vector2D&, const char*, int)`: additionally
records `d.covar = f.covariant`, read from the target at add time. -/
def Datafile.addV2D (df : Datafile) (st : Heaps) (p : Nat) (name : String)
    (grow : Int) : Except String Datafile :=
  if df.varAdded name then
    .error ("Variable " ++ name ++ " already added to Datafile")
  else
    .ok { df with v2d_arr :=
      df.v2d_arr ++
        [⟨p, name, if grow > 0 then true else false, (st.v2dH p).covariant⟩] }

/-- Model of `Datafile::add(Vector3D&, const char*, int)`. -/
def Datafile.addV3D (df : Datafile) (st : Heaps) (p : Nat) (name : String)
    (grow : Int) : Except String Datafile :=
  if df.varAdded name then
    .error ("Variable " ++ name ++ " already added to Datafile")
  else
    .ok { df with v3d_arr :=
      df.v3d_arr ++
        [⟨p, name, if grow > 0 then true else false, (st.v3dH p).covariant⟩] }

/-- Model of `Datafile::read_f2d`: allocate the target, read through the
grow-appropriate primitive; on failure warn, assign uniform zero and
return false; on success store the read payload and return true. -/
def read_f2d (file : DataFormat) (name : String) (f : Field2D) (grow : Bool) :
    Field2D × Bool × List BCall × List Warning :=
  let f1 := f.allocate
  if grow then
    match file.readF2Rec name with
    | some d => ({ f1 with data := d }, true, [.readF2Rc name], [])
    | none => (⟨true, 0⟩, false, [.readF2Rc name], [⟨"2D field", name⟩])
  else
    match file.readF2 name with
    | some d => ({ f1 with data := d }, true, [.readF2c name], [])
    | none => (⟨true, 0⟩, false, [.readF2c name], [⟨"2D field", name⟩])

/-- Model of `Datafile::read_f3d`. -/
def read_f3d (file : DataFormat) (name : String) (f : Field3D) (grow : Bool) :
    Field3D × Bool × List BCall × List Warning :=
  let f1 := f.allocate
  if grow then
    match file.readF3Rec name with
    | some d => ({ f1 with data := d }, true, [.readF3Rc name], [])
    | none => (⟨true, 0⟩, false, [.readF3Rc name], [⟨"3D field", name⟩])
  else
    match file.readF3 name with
    | some d => ({ f1 with data := d }, true, [.readF3c name], [])
    | none => (⟨true, 0⟩, false, [.readF3c name], [⟨"3D field", name⟩])

/-- Model of `Datafile::write_f2d`: silently skip (no backend call) when
the target is unallocated, otherwise invoke the grow-appropriate write
primitive with the field payload. -/
def write_f2d (file : DataFormat) (name : String) (f : Field2D) (grow : Bool) :
    Bool × List BCall :=
  if !f.allocated then (false, [])
  else if grow then (file.writeF2RecOk name, [.writeF2Rc name f.data])
  else (file.writeF2Ok name, [.writeF2c name f.data])

/-- Model of `Datafile::write_f3d`. -/
def write_f3d (file : DataFormat) (name : String) (f : Field3D) (grow : Bool) :
    Bool × List BCall :=
  if !f.allocated then (false, [])
  else if grow then (file.writeF3RecOk name, [.writeF3Rc name f.data])
  else (file.writeF3Ok name, [.writeF3c name f.data])

/-- One iteration of the integer loop in `Datafile::read`: read through
`read_rec` or `read` per the grow flag; on failure warn and zero the
target. -/
def readIntVar (file : DataFormat) (v : VarStr) (st : Heaps) :
    Heaps × List BCall × List Warning :=
  if v.grow then
    match file.readIntRec v.name with
    | some x => ({ st with intH := upd st.intH v.ptr x }, [.readIRec v.name], [])
    | none =>
        ({ st with intH := upd st.intH v.ptr 0 }, [.readIRec v.name],
         [⟨"integer", v.name⟩])
  else
    match file.readInt v.name with
    | some x => ({ st with intH := upd st.intH v.ptr x }, [.readI v.name], [])
    | none =>
        ({ st with intH := upd st.intH v.ptr 0 }, [.readI v.name],
         [⟨"integer", v.name⟩])

/-- One iteration of the BoutReal loop in `Datafile::read`. -/
def readRealVar (file : DataFormat) (v : VarStr) (st : Heaps) :
    Heaps × List BCall × List Warning :=
  if v.grow then
    match file.readRealRec v.name with
    | some x => ({ st with realH := upd st.realH v.ptr x }, [.readRRec v.name], [])
    | none =>
        ({ st with realH := upd st.realH v.ptr 0 }, [.readRRec v.name],
         [⟨"BoutReal", v.name⟩])
  else
    match file.readReal v.name with
    | some x => ({ st with realH := upd st.realH v.ptr x }, [.readR v.name], [])
    | none =>
        ({ st with realH := upd st.realH v.ptr 0 }, [.readR v.name],
         [⟨"BoutReal", v.name⟩])

/-- One iteration of the 2D-field loop in `Datafile::read`: delegate to
`read_f2d` on the registered target. -/
def readF2DVar (file : DataFormat) (v : VarStr) (st : Heaps) :
    Heaps × List BCall × List Warning :=
  let r := read_f2d file v.name (st.f2dH v.ptr) v.grow
  ({ st with f2dH := upd st.f2dH v.ptr r.1 }, r.2.2.1, r.2.2.2)

/-- One iteration of the 3D-field loop in `Datafile::read`. -/
def readF3DVar (file : DataFormat) (v : VarStr) (st : Heaps) :
    Heaps × List BCall × List Warning :=
  let r := read_f3d file v.name (st.f3dH v.ptr) v.grow
  ({ st with f3dH := upd st.f3dH v.ptr r.1 }, r.2.2.1, r.2.2.2)

/-- One iteration of the 2D-vector loop in `Datafile::read`: read the
three components under the covariance-selected names, then set the
basis flag of the vector to the recorded `covar` value. -/
def readV2DVar (file : DataFormat) (v : VarStr) (st : Heaps) :
    Heaps × List BCall × List Warning :=
  let vec := st.v2dH v.ptr
  if v.covar then
    let rx := read_f2d file (v.name ++ "_x") vec.x v.grow
    let ry := read_f2d file (v.name ++ "_y") vec.y v.grow
    let rz := read_f2d file (v.name ++ "_z") vec.z v.grow
    ({ st with v2dH := upd st.v2dH v.ptr ⟨rx.1, ry.1, rz.1, v.covar⟩ },
     rx.2.2.1 ++ ry.2.2.1 ++ rz.2.2.1, rx.2.2.2 ++ ry.2.2.2 ++ rz.2.2.2)
  else
    let rx := read_f2d file (v.name ++ "x") vec.x v.grow
    let ry := read_f2d file (v.name ++ "y") vec.y v.grow
    let rz := read_f2d file (v.name ++ "z") vec.z v.grow
    ({ st with v2dH := upd st.v2dH v.ptr ⟨rx.1, ry.1, rz.1, v.covar⟩ },
     rx.2.2.1 ++ ry.2.2.1 ++ rz.2.2.1, rx.2.2.2 ++ ry.2.2.2 ++ rz.2.2.2)

/-- One iteration of the 3D-vector loop in `Datafile::read`. -/
def readV3DVar (file : DataFormat) (v : VarStr) (st : Heaps) :
    Heaps × List BCall × List Warning :=
  let vec := st.v3dH v.ptr
  if v.covar then
    let rx := read_f3d file (v.name ++ "_x") vec.x v.grow
    let ry := read_f3d file (v.name ++ "_y") vec.y v.grow
    let rz := read_f3d file (v.name ++ "_z") vec.z v.grow
    ({ st with v3dH := upd st.v3dH v.ptr ⟨rx.1, ry.1, rz.1, v.covar⟩ },
     rx.2.2.1 ++ ry.2.2.1 ++ rz.2.2.1, rx.2.2.2 ++ ry.2.2.2 ++ rz.2.2.2)
  else
    let rx := read_f3d file (v.name ++ "x") vec.x v.grow
    let ry := read_f3d file (v.name ++ "y") vec.y v.grow
    let rz := read_f3d file (v.name ++ "z") vec.z v.grow
    ({ st with v3dH := upd st.v3dH v.ptr ⟨rx.1, ry.1, rz.1, v.covar⟩ },
     rx.2.2.1 ++ ry.2.2.1 ++ rz.2.2.1, rx.2.2.2 ++ ry.2.2.2 ++ rz.2.2.2)

/-- Sequential iteration of one read loop over a binding sequence,
threading the heap and concatenating traces and warnings. -/
def readLoop (step : VarStr → Heaps → Heaps × List BCall × List Warning) :
    List VarStr → Heaps → Heaps × List BCall × List Warning
  | [], st => (st, [], [])
  | v :: rest, st =>
      let r := step v st
      let rr := readLoop step rest r.1
      (rr.1, r.2.1 ++ rr.2.1, r.2.2 ++ rr.2.2)

/-- Model of `Datafile::read(const char*, ...)`: `none` models a NULL
format (return 1, no backend call); otherwise the resolved filename is the
template itself (printf expansion elided).  Open/validate failures return
1; then the six loops run in the fixed kind order and 0 is returned. -/
def Datafile.read (df : Datafile) (file : DataFormat) (format : Option String)
    (st : Heaps) : Int × Heaps × List BCall × List Warning :=
  match format with
  | none => (1, st, [], [])
  | some filename =>
    if !file.openr_ok filename then (1, st, [.openr filename], [])
    else if !file.valid then (1, st, [.openr filename, .isValid], [])
    else
      let r1 := readLoop (readIntVar file) df.int_arr st
      let r2 := readLoop (readRealVar file) df.BoutReal_arr r1.1
      let r3 := readLoop (readF2DVar file) df.f2d_arr r2.1
      let r4 := readLoop (readF3DVar file) df.f3d_arr r3.1
      let r5 := readLoop (readV2DVar file) df.v2d_arr r4.1
      let r6 := readLoop (readV3DVar file) df.v3d_arr r5.1
      (0, r6.1,
       [.openr filename, .isValid, .setRecord (-1)] ++
         r1.2.1 ++ r2.2.1 ++ r3.2.1 ++ r4.2.1 ++ r5.2.1 ++ r6.2.1 ++ [.close],
       r1.2.2 ++ r2.2.2 ++ r3.2.2 ++ r4.2.2 ++ r5.2.2 ++ r6.2.2)

/-- One iteration of the integer loop in `Datafile::write`: the backend
write result is not inspected by the driver. -/
def writeIntVar (file : DataFormat) (v : VarStr) (st : Heaps) :
    Heaps × List BCall :=
  if v.grow then (st, [.writeIRec v.name (st.intH v.ptr)])
  else (st, [.writeI v.name (st.intH v.ptr)])

/-- One iteration of the BoutReal loop in `Datafile::write`. -/
def writeRealVar (file : DataFormat) (v : VarStr) (st : Heaps) :
    Heaps × List BCall :=
  if v.grow then (st, [.writeRRec v.name (st.realH v.ptr)])
  else (st, [.writeR v.name (st.realH v.ptr)])

/-- One iteration of the 2D-field loop in `Datafile::write`: delegate to
`write_f2d`; the result is ignored. -/
def writeF2DVar (file : DataFormat) (v : VarStr) (st : Heaps) :
    Heaps × List BCall :=
  (st, (write_f2d file v.name (st.f2dH v.ptr) v.grow).2)

/-- One iteration of the 3D-field loop in `Datafile::write`. -/
def writeF3DVar (file : DataFormat) (v : VarStr) (st : Heaps) :
    Heaps × List BCall :=
  (st, (write_f3d file v.name (st.f3dH v.ptr) v.grow).2)

/-- One iteration of the 2D-vector loop in `Datafile::write`: a value copy
of the target is converted to the recorded basis and the components of the copy
are written under the covariance-selected names; the vector of the caller is
not touched. -/
def writeV2DVar (env : GeomEnv) (file : DataFormat) (v : VarStr) (st : Heaps) :
    Heaps × List BCall :=
  if v.covar then
    let w := env.toCov2 (st.v2dH v.ptr)
    (st, (write_f2d file (v.name ++ "_x") w.x v.grow).2 ++
         (write_f2d file (v.name ++ "_y") w.y v.grow).2 ++
         (write_f2d file (v.name ++ "_z") w.z v.grow).2)
  else
    let w := env.toContra2 (st.v2dH v.ptr)
    (st, (write_f2d file (v.name ++ "x") w.x v.grow).2 ++
         (write_f2d file (v.name ++ "y") w.y v.grow).2 ++
         (write_f2d file (v.name ++ "z") w.z v.grow).2)

/-- One iteration of the 3D-vector loop in `Datafile::write`. -/
def writeV3DVar (env : GeomEnv) (file : DataFormat) (v : VarStr) (st : Heaps) :
    Heaps × List BCall :=
  if v.covar then
    let w := env.toCov3 (st.v3dH v.ptr)
    (st, (write_f3d file (v.name ++ "_x") w.x v.grow).2 ++
         (write_f3d file (v.name ++ "_y") w.y v.grow).2 ++
         (write_f3d file (v.name ++ "_z") w.z v.grow).2)
  else
    let w := env.toContra3 (st.v3dH v.ptr)
    (st, (write_f3d file (v.name ++ "x") w.x v.grow).2 ++
         (write_f3d file (v.name ++ "y") w.y v.grow).2 ++
         (write_f3d file (v.name ++ "z") w.z v.grow).2)

/-- Sequential iteration of one write loop over a binding sequence. -/
def writeLoop (step : VarStr → Heaps → Heaps × List BCall) :
    List VarStr → Heaps → Heaps × List BCall
  | [], st => (st, [])
  | v :: rest, st =>
      let r := step v st
      let rr := writeLoop step rest r.1
      (rr.1, r.2 ++ rr.2)

/-- Model of `Datafile::write(const string&, bool)`: the process-wide
`enabled` flag is passed explicitly; when it is false the call returns
true with no backend call at all.  Otherwise open/validate gate the
transfer and the six loops run in the fixed kind order. -/
def Datafile.write (df : Datafile) (env : GeomEnv) (file : DataFormat)
    (enabled : Bool) (filename : String) (app : Bool) (st : Heaps) :
    Bool × Heaps × List BCall :=
  if !enabled then (true, st, [])
  else if !file.openw_ok filename app then (false, st, [.openw filename app])
  else if !file.valid then (false, st, [.openw filename app, .isValid])
  else
    let r1 := writeLoop (writeIntVar file) df.int_arr st
    let r2 := writeLoop (writeRealVar file) df.BoutReal_arr r1.1
    let r3 := writeLoop (writeF2DVar file) df.f2d_arr r2.1
    let r4 := writeLoop (writeF3DVar file) df.f3d_arr r3.1
    let r5 := writeLoop (writeV2DVar env file) df.v2d_arr r4.1
    let r6 := writeLoop (writeV3DVar env file) df.v3d_arr r5.1
    (true, r6.1,
     [.openw filename app, .isValid, .setRecord (-1)] ++
       r1.2 ++ r2.2 ++ r3.2 ++ r4.2 ++ r5.2 ++ r6.2 ++ [.close])

/-- Model of the variadic `Datafile::write(const char*, ...)` wrapper:
NULL format returns 1 without any backend call; otherwise delegate to the
two-argument `write` with `append = false` and map its boolean to 0 / 1. -/
def Datafile.writeFmt (df : Datafile) (env : GeomEnv) (file : DataFormat)
    (enabled : Bool) (format : Option String) (st : Heaps) :
    Int × Heaps × List BCall :=
  match format with
  | none => (1, st, [])
  | some filename =>
      let r := df.write env file enabled filename false st
      (if r.1 then 0 else 1, r.2.1, r.2.2)

/-- Model of the variadic `Datafile::append(const char*, ...)` wrapper:
as `writeFmt` but with `append = true`. -/
def Datafile.append (df : Datafile) (env : GeomEnv) (file : DataFormat)
    (enabled : Bool) (format : Option String) (st : Heaps) :
    Int × Heaps × List BCall :=
  match format with
  | none => (1, st, [])
  | some filename =>
      let r := df.write env file enabled filename true st
      (if r.1 then 0 else 1, r.2.1, r.2.2)

/-- Modelled from the spec: `Datafile::setFilename(const string&)` is
declared outside this translation unit; it stores the resolved filename as
the default filename. -/
def Datafile.setFilenameStr (df : Datafile) (filename : String) : Datafile :=
  { df with def_filename := filename }

/-- Model of the variadic `Datafile::setFilename(const char*, ...)`: a
NULL format clears `def_filename` and returns (no failure status, it is
void); otherwise it delegates to the string overload.  No backend
primitive is invoked on either path. -/
def Datafile.setFilename (df : Datafile) (format : Option String) :
    Datafile × List BCall :=
  match format with
  | none => ({ df with def_filename := "" }, [])
  | some filename => (df.setFilenameStr filename, [])

/-! Concrete objects for evaluating the model on specific inputs. -/

/-- A heap holding zeroed scalars and unallocated fields and vectors. -/
def st0 : Heaps :=
  ⟨fun _ => 0, fun _ => 0, fun _ => ⟨false, 0⟩, fun _ => ⟨false, 0⟩,
   fun _ => ⟨⟨false, 0⟩, ⟨false, 0⟩, ⟨false, 0⟩, false⟩,
   fun _ => ⟨⟨false, 0⟩, ⟨false, 0⟩, ⟨false, 0⟩, false⟩⟩

/-- The empty registry. -/
def df0 : Datafile := ⟨false, "", [], [], [], [], [], []⟩

/-- A registry already holding one integer binding named a. -/
def dfA : Datafile := { df0 with int_arr := [⟨0, "a", false, false⟩] }

/-- A backend whose opens always succeed, which reports valid, whose read
primitives all fail, and whose write primitives all succeed. -/
def bOpen : DataFormat :=
  ⟨fun _ => true, fun _ _ => true, true,
   fun _ => none, fun _ => none, fun _ => none, fun _ => none,
   fun _ => none, fun _ => none, fun _ => none, fun _ => none,
   fun _ => true, fun _ => true, fun _ => true, fun _ => true,
   fun _ => true, fun _ => true, fun _ => true, fun _ => true⟩

/-- Identity basis conversions, for concrete evaluations. -/
def env0 : GeomEnv := ⟨id, id, id, id⟩

/-- A heap whose vectors have allocated components with distinct data. -/
def stA : Heaps :=
  { st0 with
    v2dH := fun _ => ⟨⟨true, 1⟩, ⟨true, 2⟩, ⟨true, 3⟩, true⟩,
    v3dH := fun _ => ⟨⟨true, 4⟩, ⟨true, 5⟩, ⟨true, 6⟩, true⟩ }

/-! Helper lemmas about the traces and heap effects of single loop
iterations, shared by the claim theorems below. -/

/-- One `read_f2d` call invokes exactly one backend read primitive, picked
by the grow flag, whether or not it succeeds. -/
theorem read_f2d_trace (file : DataFormat) (n : String) (f : Field2D)
    (g : Bool) :
    (read_f2d file n f g).2.2.1 =
      [if g then BCall.readF2Rc n else BCall.readF2c n] := by
  unfold read_f2d
  cases g
  · cases h : file.readF2 n <;> simp [h]
  · cases h : file.readF2Rec n <;> simp [h]

/-- One `read_f3d` call invokes exactly one backend read primitive. -/
theorem read_f3d_trace (file : DataFormat) (n : String) (f : Field3D)
    (g : Bool) :
    (read_f3d file n f g).2.2.1 =
      [if g then BCall.readF3Rc n else BCall.readF3c n] := by
  unfold read_f3d
  cases g
  · cases h : file.readF3 n <;> simp [h]
  · cases h : file.readF3Rec n <;> simp [h]

/-- One integer read iteration invokes exactly one backend primitive. -/
theorem readIntVar_trace (file : DataFormat) (v : VarStr) (st : Heaps) :
    (readIntVar file v st).2.1 =
      [if v.grow then BCall.readIRec v.name else BCall.readI v.name] := by
  unfold readIntVar
  cases hg : v.grow
  · cases h : file.readInt v.name <;> simp [h]
  · cases h : file.readIntRec v.name <;> simp [h]

/-- One BoutReal read iteration invokes exactly one backend primitive. -/
theorem readRealVar_trace (file : DataFormat) (v : VarStr) (st : Heaps) :
    (readRealVar file v st).2.1 =
      [if v.grow then BCall.readRRec v.name else BCall.readR v.name] := by
  unfold readRealVar
  cases hg : v.grow
  · cases h : file.readReal v.name <;> simp [h]
  · cases h : file.readRealRec v.name <;> simp [h]

/-- One 2D-field read iteration invokes exactly one backend primitive. -/
theorem readF2DVar_trace (file : DataFormat) (v : VarStr) (st : Heaps) :
    (readF2DVar file v st).2.1 =
      [if v.grow then BCall.readF2Rc v.name else BCall.readF2c v.name] := by
  simp [readF2DVar, read_f2d_trace]

/-- One 3D-field read iteration invokes exactly one backend primitive. -/
theorem readF3DVar_trace (file : DataFormat) (v : VarStr) (st : Heaps) :
    (readF3DVar file v st).2.1 =
      [if v.grow then BCall.readF3Rc v.name else BCall.readF3c v.name] := by
  simp [readF3DVar, read_f3d_trace]

/-- One 2D-vector read iteration invokes exactly three backend read
primitives, on the covariance-selected component names. -/
theorem readV2DVar_trace (file : DataFormat) (v : VarStr) (st : Heaps) :
    (readV2DVar file v st).2.1 =
      [if v.grow then BCall.readF2Rc (v.name ++ (if v.covar then "_x" else "x"))
         else BCall.readF2c (v.name ++ (if v.covar then "_x" else "x")),
       if v.grow then BCall.readF2Rc (v.name ++ (if v.covar then "_y" else "y"))
         else BCall.readF2c (v.name ++ (if v.covar then "_y" else "y")),
       if v.grow then BCall.readF2Rc (v.name ++ (if v.covar then "_z" else "z"))
         else BCall.readF2c (v.name ++ (if v.covar then "_z" else "z"))] := by
  unfold readV2DVar
  cases hc : v.covar <;> simp [read_f2d_trace]

/-- One 3D-vector read iteration invokes exactly three backend read
primitives, on the covariance-selected component names. -/
theorem readV3DVar_trace (file : DataFormat) (v : VarStr) (st : Heaps) :
    (readV3DVar file v st).2.1 =
      [if v.grow then BCall.readF3Rc (v.name ++ (if v.covar then "_x" else "x"))
         else BCall.readF3c (v.name ++ (if v.covar then "_x" else "x")),
       if v.grow then BCall.readF3Rc (v.name ++ (if v.covar then "_y" else "y"))
         else BCall.readF3c (v.name ++ (if v.covar then "_y" else "y")),
       if v.grow then BCall.readF3Rc (v.name ++ (if v.covar then "_z" else "z"))
         else BCall.readF3c (v.name ++ (if v.covar then "_z" else "z"))] := by
  unfold readV3DVar
  cases hc : v.covar <;> simp [read_f3d_trace]

/-- A read loop whose step emits k backend calls per binding emits k calls
per registered binding in total: no failure aborts the iteration. -/
theorem readLoop_len (step : VarStr → Heaps → Heaps × List BCall × List Warning)
    (k : Nat) (h : ∀ v st, ((step v st).2.1).length = k) :
    ∀ (l : List VarStr) (st : Heaps),
      ((readLoop step l st).2.1).length = k * l.length := by
  intro l
  induction l with
  | nil => intro st; simp [readLoop]
  | cons v rest ih =>
      intro st
      simp only [readLoop, List.length_append, List.length_cons, h, ih]
      ring

/-- A write loop whose step leaves the heaps unchanged leaves the heaps
unchanged. -/
theorem writeLoop_state (step : VarStr → Heaps → Heaps × List BCall)
    (h : ∀ v st, (step v st).1 = st) :
    ∀ (l : List VarStr) (st : Heaps), (writeLoop step l st).1 = st := by
  intro l
  induction l with
  | nil => intro st; rfl
  | cons v rest ih => intro st; simp [writeLoop, h, ih]

/-- Integer write iterations do not touch the heaps. -/
theorem writeIntVar_state (file : DataFormat) (v : VarStr) (st : Heaps) :
    (writeIntVar file v st).1 = st := by
  unfold writeIntVar; cases hg : v.grow <;> simp

/-- BoutReal write iterations do not touch the heaps. -/
theorem writeRealVar_state (file : DataFormat) (v : VarStr) (st : Heaps) :
    (writeRealVar file v st).1 = st := by
  unfold writeRealVar; cases hg : v.grow <;> simp

/-- 2D-field write iterations do not touch the heaps. -/
theorem writeF2DVar_state (file : DataFormat) (v : VarStr) (st : Heaps) :
    (writeF2DVar file v st).1 = st := rfl

/-- 3D-field write iterations do not touch the heaps. -/
theorem writeF3DVar_state (file : DataFormat) (v : VarStr) (st : Heaps) :
    (writeF3DVar file v st).1 = st := rfl

/-- 2D-vector write iterations do not touch the heaps. -/
theorem writeV2DVar_state (env : GeomEnv) (file : DataFormat) (v : VarStr)
    (st : Heaps) : (writeV2DVar env file v st).1 = st := by
  unfold writeV2DVar; cases hc : v.covar <;> simp

/-- 3D-vector write iterations do not touch the heaps. -/
theorem writeV3DVar_state (env : GeomEnv) (file : DataFormat) (v : VarStr)
    (st : Heaps) : (writeV3DVar env file v st).1 = st := by
  unfold writeV3DVar; cases hc : v.covar <;> simp

/-- The whole write driver leaves the heaps unchanged. -/
theorem write_state (df : Datafile) (env : GeomEnv) (file : DataFormat)
    (enabled : Bool) (filename : String) (app : Bool) (st : Heaps) :
    (df.write env file enabled filename app st).2.1 = st := by
  unfold Datafile.write
  cases enabled <;> cases ho : file.openw_ok filename app <;>
    cases hv : file.valid <;>
    simp [ho, hv, writeLoop_state _ (writeIntVar_state file),
      writeLoop_state _ (writeRealVar_state file),
      writeLoop_state _ (writeF2DVar_state file),
      writeLoop_state _ (writeF3DVar_state file),
      writeLoop_state _ (writeV2DVar_state env file),
      writeLoop_state _ (writeV3DVar_state env file)]

/-- C2: an `add` call with a name already present in any of the six kind
sequences (case-sensitive exact match) raises the naming-conflict error
identifying the duplicate name and produces no mutated registry (the error
result carries no state, so all six sequences are left as they were),
while a successful `add` appends exactly one binding to the
kind-appropriate sequence and leaves the other five sequences untouched. -/
theorem add_uniqueness (df : Datafile) (st : Heaps) (p : Nat) (n : String)
    (g : Int) :
    (df.varAdded n = true →
      df.addInt p n g = .error ("Variable " ++ n ++ " already added to Datafile") ∧
      df.addReal p n g = .error ("Variable " ++ n ++ " already added to Datafile") ∧
      df.addF2D p n g = .error ("Variable " ++ n ++ " already added to Datafile") ∧
      df.addF3D p n g = .error ("Variable " ++ n ++ " already added to Datafile") ∧
      df.addV2D st p n g = .error ("Variable " ++ n ++ " already added to Datafile") ∧
      df.addV3D st p n g = .error ("Variable " ++ n ++ " already added to Datafile")) ∧
    (df.varAdded n = false →
      df.addInt p n g = .ok { df with int_arr :=
        df.int_arr ++ [⟨p, n, if g > 0 then true else false, false⟩] } ∧
      df.addReal p n g = .ok { df with BoutReal_arr :=
        df.BoutReal_arr ++ [⟨p, n, if g > 0 then true else false, false⟩] } ∧
      df.addF2D p n g = .ok { df with f2d_arr :=
        df.f2d_arr ++ [⟨p, n, if g > 0 then true else false, false⟩] } ∧
      df.addF3D p n g = .ok { df with f3d_arr :=
        df.f3d_arr ++ [⟨p, n, if g > 0 then true else false, false⟩] } ∧
      df.addV2D st p n g = .ok { df with v2d_arr :=
        df.v2d_arr ++ [⟨p, n, if g > 0 then true else false, (st.v2dH p).covariant⟩] } ∧
      df.addV3D st p n g = .ok { df with v3d_arr :=
        df.v3d_arr ++ [⟨p, n, if g > 0 then true else false, (st.v3dH p).covariant⟩] }) := by
  constructor
  · intro h
    simp [Datafile.addInt, Datafile.addReal, Datafile.addF2D, Datafile.addF3D,
      Datafile.addV2D, Datafile.addV3D, h]
  · intro h
    simp [Datafile.addInt, Datafile.addReal, Datafile.addF2D, Datafile.addF3D,
      Datafile.addV2D, Datafile.addV3D, h]

/-- Witness for C2: the duplicate branch on a registry already holding the
name a, and the fresh branch on the empty registry. -/
theorem add_uniqueness_witness :
    (dfA.addInt 1 "a" 1 =
      .error ("Variable " ++ "a" ++ " already added to Datafile")) ∧
    (df0.addInt 1 "a" 1 = .ok { df0 with int_arr :=
      df0.int_arr ++ [⟨1, "a", if (1 : Int) > 0 then true else false, false⟩] }) :=
  ⟨((add_uniqueness dfA st0 1 "a" 1).1 (by decide)).1,
   ((add_uniqueness df0 st0 1 "a" 1).2 (by decide)).1⟩

/-- C10: the binding recorded by a successful `add` has grow set to true
exactly when the integer grow argument is strictly positive; any zero or
negative argument registers a non-growing binding.  Each of the six
overloads appends its record at the end of the kind-appropriate
sequence. -/
theorem add_grow_threshold (df : Datafile) (st : Heaps) (p : Nat) (n : String)
    (g : Int) (hfree : df.varAdded n = false) :
    ((if g > 0 then true else false) = true ↔ 0 < g) ∧
    (∃ d, df.addInt p n g = .ok d ∧
      d.int_arr.getLast? = some ⟨p, n, if g > 0 then true else false, false⟩) ∧
    (∃ d, df.addReal p n g = .ok d ∧
      d.BoutReal_arr.getLast? = some ⟨p, n, if g > 0 then true else false, false⟩) ∧
    (∃ d, df.addF2D p n g = .ok d ∧
      d.f2d_arr.getLast? = some ⟨p, n, if g > 0 then true else false, false⟩) ∧
    (∃ d, df.addF3D p n g = .ok d ∧
      d.f3d_arr.getLast? = some ⟨p, n, if g > 0 then true else false, false⟩) ∧
    (∃ d, df.addV2D st p n g = .ok d ∧
      d.v2d_arr.getLast? =
        some ⟨p, n, if g > 0 then true else false, (st.v2dH p).covariant⟩) ∧
    (∃ d, df.addV3D st p n g = .ok d ∧
      d.v3d_arr.getLast? =
        some ⟨p, n, if g > 0 then true else false, (st.v3dH p).covariant⟩) := by
  refine ⟨by by_cases h : 0 < g <;> simp [h], ?_, ?_, ?_, ?_, ?_, ?_⟩
  · exact ⟨{ df with int_arr :=
        df.int_arr ++ [⟨p, n, if g > 0 then true else false, false⟩] },
      by simp [Datafile.addInt, hfree], by simp [List.getLast?_append_cons]⟩
  · exact ⟨{ df with BoutReal_arr :=
        df.BoutReal_arr ++ [⟨p, n, if g > 0 then true else false, false⟩] },
      by simp [Datafile.addReal, hfree], by simp [List.getLast?_append_cons]⟩
  · exact ⟨{ df with f2d_arr :=
        df.f2d_arr ++ [⟨p, n, if g > 0 then true else false, false⟩] },
      by simp [Datafile.addF2D, hfree], by simp [List.getLast?_append_cons]⟩
  · exact ⟨{ df with f3d_arr :=
        df.f3d_arr ++ [⟨p, n, if g > 0 then true else false, false⟩] },
      by simp [Datafile.addF3D, hfree], by simp [List.getLast?_append_cons]⟩
  · exact ⟨{ df with v2d_arr :=
        df.v2d_arr ++ [⟨p, n, if g > 0 then true else false, (st.v2dH p).covariant⟩] },
      by simp [Datafile.addV2D, hfree], by simp [List.getLast?_append_cons]⟩
  · exact ⟨{ df with v3d_arr :=
        df.v3d_arr ++ [⟨p, n, if g > 0 then true else false, (st.v3dH p).covariant⟩] },
      by simp [Datafile.addV3D, hfree], by simp [List.getLast?_append_cons]⟩

/-- Witness for C10 at grow argument 0 on the empty registry: the
recorded flag is false. -/
theorem add_grow_threshold_witness :
    df0.varAdded "n" = false ∧
    (∃ d, df0.addInt 2 "n" 0 = .ok d ∧
      d.int_arr.getLast? = some ⟨2, "n", if (0 : Int) > 0 then true else false, false⟩) :=
  ⟨by decide, (add_grow_threshold df0 st0 2 "n" 0 (by decide)).2.1⟩

/-- C3: with the process-wide enabled flag false, `write` returns success
immediately, with no backend primitive invoked (empty trace) and the
heaps untouched, for every registry, backend, conversion environment,
path, append flag and state. -/
theorem write_disabled_short_circuit (df : Datafile) (env : GeomEnv)
    (file : DataFormat) (filename : String) (app : Bool) (st : Heaps) :
    df.write env file false filename app st = (true, st, []) := rfl

/-- C9 counterexample: an empty but non-null format template is not
rejected.  On an accepting backend, `read` with the template "" opens the
backend (the openr primitive runs with the empty filename) and returns 0,
success — the claim says such a call returns failure immediately with no
backend primitive touched. -/
theorem empty_format_not_rejected :
    (df0.read bOpen (some "") st0).1 = 0 ∧
    BCall.openr "" ∈ (df0.read bOpen (some "") st0).2.2.1 := by
  exact ⟨rfl, by decide⟩

/-- C9 amended: for `read`, `write` and `append` a null format template
returns failure (1) immediately with no backend primitive invoked; the
filename setter with a null template clears the stored default filename
and touches no backend (it is void and returns no failure status); an
empty but non-null template is not rejected. -/
theorem null_format_short_circuit (df : Datafile) (env : GeomEnv)
    (file : DataFormat) (enabled : Bool) (st : Heaps) :
    df.read file none st = (1, st, [], []) ∧
    df.writeFmt env file enabled none st = (1, st, []) ∧
    df.append env file enabled none st = (1, st, []) ∧
    df.setFilename none = ({ df with def_filename := "" }, []) :=
  ⟨rfl, rfl, rfl, rfl⟩

/-- C4: both the read and the write driver address the three components
of a vector binding as name plus "_x","_y","_z" when the recorded
covariant flag is true, and name plus "x","y","z" when it is false, for
2D and 3D vector kinds alike (on the write side the events appear when
the components of the converted copy are allocated). -/
theorem vector_component_names (file : DataFormat) (env : GeomEnv)
    (v : VarStr) (st : Heaps) :
    ((readV2DVar file v st).2.1 =
      [if v.grow then BCall.readF2Rc (v.name ++ (if v.covar then "_x" else "x"))
         else BCall.readF2c (v.name ++ (if v.covar then "_x" else "x")),
       if v.grow then BCall.readF2Rc (v.name ++ (if v.covar then "_y" else "y"))
         else BCall.readF2c (v.name ++ (if v.covar then "_y" else "y")),
       if v.grow then BCall.readF2Rc (v.name ++ (if v.covar then "_z" else "z"))
         else BCall.readF2c (v.name ++ (if v.covar then "_z" else "z"))]) ∧
    ((readV3DVar file v st).2.1 =
      [if v.grow then BCall.readF3Rc (v.name ++ (if v.covar then "_x" else "x"))
         else BCall.readF3c (v.name ++ (if v.covar then "_x" else "x")),
       if v.grow then BCall.readF3Rc (v.name ++ (if v.covar then "_y" else "y"))
         else BCall.readF3c (v.name ++ (if v.covar then "_y" else "y")),
       if v.grow then BCall.readF3Rc (v.name ++ (if v.covar then "_z" else "z"))
         else BCall.readF3c (v.name ++ (if v.covar then "_z" else "z"))]) ∧
    (∀ w : Vector2D,
      w = (if v.covar then env.toCov2 (st.v2dH v.ptr)
           else env.toContra2 (st.v2dH v.ptr)) →
      w.x.allocated = true → w.y.allocated = true → w.z.allocated = true →
      (writeV2DVar env file v st).2 =
        [if v.grow then
           BCall.writeF2Rc (v.name ++ (if v.covar then "_x" else "x")) w.x.data
         else BCall.writeF2c (v.name ++ (if v.covar then "_x" else "x")) w.x.data,
         if v.grow then
           BCall.writeF2Rc (v.name ++ (if v.covar then "_y" else "y")) w.y.data
         else BCall.writeF2c (v.name ++ (if v.covar then "_y" else "y")) w.y.data,
         if v.grow then
           BCall.writeF2Rc (v.name ++ (if v.covar then "_z" else "z")) w.z.data
         else BCall.writeF2c (v.name ++ (if v.covar then "_z" else "z")) w.z.data]) ∧
    (∀ w : Vector3D,
      w = (if v.covar then env.toCov3 (st.v3dH v.ptr)
           else env.toContra3 (st.v3dH v.ptr)) →
      w.x.allocated = true → w.y.allocated = true → w.z.allocated = true →
      (writeV3DVar env file v st).2 =
        [if v.grow then
           BCall.writeF3Rc (v.name ++ (if v.covar then "_x" else "x")) w.x.data
         else BCall.writeF3c (v.name ++ (if v.covar then "_x" else "x")) w.x.data,
         if v.grow then
           BCall.writeF3Rc (v.name ++ (if v.covar then "_y" else "y")) w.y.data
         else BCall.writeF3c (v.name ++ (if v.covar then "_y" else "y")) w.y.data,
         if v.grow then
           BCall.writeF3Rc (v.name ++ (if v.covar then "_z" else "z")) w.z.data
         else BCall.writeF3c (v.name ++ (if v.covar then "_z" else "z")) w.z.data]) := by
  refine ⟨readV2DVar_trace file v st, readV3DVar_trace file v st, ?_, ?_⟩
  · intro w hw hx hy hz
    subst hw
    cases hc : v.covar <;> cases hg : v.grow <;>
      simp [hc] at hx hy hz <;>
      simp [writeV2DVar, write_f2d, hc, hg, hx, hy, hz]
  · intro w hw hx hy hz
    subst hw
    cases hc : v.covar <;> cases hg : v.grow <;>
      simp [hc] at hx hy hz <;>
      simp [writeV3DVar, write_f3d, hc, hg, hx, hy, hz]

/-- Witness for C4: a covariant 2D-vector binding named v with allocated
components writes the keys v_x, v_y, v_z. -/
theorem vector_component_names_witness :
    (writeV2DVar env0 bOpen ⟨0, "v", false, true⟩ stA).2 =
      [BCall.writeF2c "v_x" 1, BCall.writeF2c "v_y" 2,
       BCall.writeF2c "v_z" 3] := by
  rw [(vector_component_names bOpen env0 ⟨0, "v", false, true⟩ stA).2.2.1
    (env0.toCov2 (stA.v2dH 0)) rfl rfl rfl rfl]
  decide

/-- C5: the write driver operates on value copies only.  The full driver
returns all heaps unchanged (so the caller-visible vector objects,
components and basis flag included, are untouched), the vector write
iterations return the heaps unchanged, and the fields handed to the
backend are the components of the copy converted to the basis of the binding:
`toCovariant` of the target when the recorded flag is covariant,
`toContravariant` of the target otherwise. -/
theorem write_vector_value_copy (df : Datafile) (env : GeomEnv)
    (file : DataFormat) (enabled : Bool) (filename : String) (app : Bool)
    (st : Heaps) (v : VarStr) :
    (df.write env file enabled filename app st).2.1 = st ∧
    (writeV2DVar env file v st).1 = st ∧
    (writeV3DVar env file v st).1 = st ∧
    (v.covar = true →
      (writeV2DVar env file v st).2 =
        (write_f2d file (v.name ++ "_x") (env.toCov2 (st.v2dH v.ptr)).x v.grow).2 ++
        (write_f2d file (v.name ++ "_y") (env.toCov2 (st.v2dH v.ptr)).y v.grow).2 ++
        (write_f2d file (v.name ++ "_z") (env.toCov2 (st.v2dH v.ptr)).z v.grow).2) ∧
    (v.covar = false →
      (writeV2DVar env file v st).2 =
        (write_f2d file (v.name ++ "x") (env.toContra2 (st.v2dH v.ptr)).x v.grow).2 ++
        (write_f2d file (v.name ++ "y") (env.toContra2 (st.v2dH v.ptr)).y v.grow).2 ++
        (write_f2d file (v.name ++ "z") (env.toContra2 (st.v2dH v.ptr)).z v.grow).2) ∧
    (v.covar = true →
      (writeV3DVar env file v st).2 =
        (write_f3d file (v.name ++ "_x") (env.toCov3 (st.v3dH v.ptr)).x v.grow).2 ++
        (write_f3d file (v.name ++ "_y") (env.toCov3 (st.v3dH v.ptr)).y v.grow).2 ++
        (write_f3d file (v.name ++ "_z") (env.toCov3 (st.v3dH v.ptr)).z v.grow).2) ∧
    (v.covar = false →
      (writeV3DVar env file v st).2 =
        (write_f3d file (v.name ++ "x") (env.toContra3 (st.v3dH v.ptr)).x v.grow).2 ++
        (write_f3d file (v.name ++ "y") (env.toContra3 (st.v3dH v.ptr)).y v.grow).2 ++
        (write_f3d file (v.name ++ "z") (env.toContra3 (st.v3dH v.ptr)).z v.grow).2) := by
  refine ⟨write_state df env file enabled filename app st,
    writeV2DVar_state env file v st, writeV3DVar_state env file v st,
    ?_, ?_, ?_, ?_⟩ <;>
  · intro h
    simp [writeV2DVar, writeV3DVar, h]

/-- Witness for C5: with identity conversions, a covariant and a
contravariant binding at the allocated concrete heap. -/
theorem write_vector_value_copy_witness :
    (df0.write env0 bOpen true "f" false stA).2.1 = stA ∧
    (writeV2DVar env0 bOpen ⟨0, "v", false, true⟩ stA).2 =
      (write_f2d bOpen ("v" ++ "_x") (env0.toCov2 (stA.v2dH 0)).x false).2 ++
      (write_f2d bOpen ("v" ++ "_y") (env0.toCov2 (stA.v2dH 0)).y false).2 ++
      (write_f2d bOpen ("v" ++ "_z") (env0.toCov2 (stA.v2dH 0)).z false).2 ∧
    (writeV2DVar env0 bOpen ⟨0, "w", false, false⟩ stA).2 =
      (write_f2d bOpen ("w" ++ "x") (env0.toContra2 (stA.v2dH 0)).x false).2 ++
      (write_f2d bOpen ("w" ++ "y") (env0.toContra2 (stA.v2dH 0)).y false).2 ++
      (write_f2d bOpen ("w" ++ "z") (env0.toContra2 (stA.v2dH 0)).z false).2 :=
  ⟨(write_vector_value_copy df0 env0 bOpen true "f" false stA
      ⟨0, "v", false, true⟩).1,
   (write_vector_value_copy df0 env0 bOpen true "f" false stA
      ⟨0, "v", false, true⟩).2.2.2.1 rfl,
   (write_vector_value_copy df0 env0 bOpen true "f" false stA
      ⟨0, "w", false, false⟩).2.2.2.2.1 rfl⟩

/-- C6: after the read driver processes a vector binding, the target
basis flag of the vector equals the covariant value recorded at registration
time, and its components are exactly the outputs of the component reads —
`readV2DVar` and `readV3DVar` take no basis-conversion environment at all,
so no conversion can be applied on read. -/
theorem read_vector_basis (file : DataFormat) (v : VarStr) (st : Heaps) :
    ((readV2DVar file v st).1.v2dH v.ptr).covariant = v.covar ∧
    (readV2DVar file v st).1.v2dH v.ptr =
      ⟨(read_f2d file (v.name ++ (if v.covar then "_x" else "x"))
          (st.v2dH v.ptr).x v.grow).1,
       (read_f2d file (v.name ++ (if v.covar then "_y" else "y"))
          (st.v2dH v.ptr).y v.grow).1,
       (read_f2d file (v.name ++ (if v.covar then "_z" else "z"))
          (st.v2dH v.ptr).z v.grow).1,
       v.covar⟩ ∧
    ((readV3DVar file v st).1.v3dH v.ptr).covariant = v.covar ∧
    (readV3DVar file v st).1.v3dH v.ptr =
      ⟨(read_f3d file (v.name ++ (if v.covar then "_x" else "x"))
          (st.v3dH v.ptr).x v.grow).1,
       (read_f3d file (v.name ++ (if v.covar then "_y" else "y"))
          (st.v3dH v.ptr).y v.grow).1,
       (read_f3d file (v.name ++ (if v.covar then "_z" else "z"))
          (st.v3dH v.ptr).z v.grow).1,
       v.covar⟩ := by
  refine ⟨?_, ?_, ?_, ?_⟩ <;>
    cases hc : v.covar <;> simp [readV2DVar, readV3DVar, upd, hc]

/-- C8: during write, an unallocated field target produces no backend
event at all (empty trace, the field is silently skipped), and, whatever
the allocation states of the registered fields, the return status of the driver
is success whenever the open and validity checks succeeded. -/
theorem write_unallocated_skip (file : DataFormat) (nm : String)
    (f2 : Field2D) (f3 : Field3D) (g : Bool) (df : Datafile) (env : GeomEnv)
    (filename : String) (app : Bool) (st : Heaps) :
    (f2.allocated = false → write_f2d file nm f2 g = (false, [])) ∧
    (f3.allocated = false → write_f3d file nm f3 g = (false, [])) ∧
    (file.openw_ok filename app = true → file.valid = true →
      (df.write env file true filename app st).1 = true) := by
  refine ⟨?_, ?_, ?_⟩
  · intro h; simp [write_f2d, h]
  · intro h; simp [write_f3d, h]
  · intro ho hv; simp [Datafile.write, ho, hv]

/-- Witness for C8: an unallocated 2D field, an unallocated 3D field, and
a successful disabled-free write on the accepting backend. -/
theorem write_unallocated_skip_witness :
    write_f2d bOpen "u" ⟨false, 7⟩ false = (false, []) ∧
    write_f3d bOpen "u" ⟨false, 7⟩ false = (false, []) ∧
    (df0.write env0 bOpen true "f" false st0).1 = true :=
  ⟨(write_unallocated_skip bOpen "u" ⟨false, 7⟩ ⟨false, 7⟩ false df0 env0
      "f" false st0).1 rfl,
   (write_unallocated_skip bOpen "u" ⟨false, 7⟩ ⟨false, 7⟩ false df0 env0
      "f" false st0).2.1 rfl,
   (write_unallocated_skip bOpen "u" ⟨false, 7⟩ ⟨false, 7⟩ false df0 env0
      "f" false st0).2.2 rfl rfl⟩

/-- C1: once the open and validity checks succeed, `read` returns 0 no
matter which per-variable reads fail; every registered binding is still
attempted (the trace holds one backend read per scalar or field binding
and three per vector binding, plus open, validity, set-record and close);
and a failing scalar or field read logs exactly one warning naming the
variable and its kind and assigns zero to the target (scalar target 0,
field target uniform 0 and allocated). -/
theorem read_failure_policy (df : Datafile) (file : DataFormat)
    (filename : String) (st : Heaps)
    (hopen : file.openr_ok filename = true) (hvalid : file.valid = true) :
    (df.read file (some filename) st).1 = 0 ∧
    ((df.read file (some filename) st).2.2.1).length =
      3 + (df.int_arr.length + df.BoutReal_arr.length + df.f2d_arr.length +
        df.f3d_arr.length + 3 * df.v2d_arr.length + 3 * df.v3d_arr.length) + 1 ∧
    (∀ (v : VarStr) (h : Heaps),
      (if v.grow then file.readIntRec v.name else file.readInt v.name) = none →
      readIntVar file v h =
        ({ h with intH := upd h.intH v.ptr 0 },
         [if v.grow then BCall.readIRec v.name else BCall.readI v.name],
         [⟨"integer", v.name⟩])) ∧
    (∀ (v : VarStr) (h : Heaps),
      (if v.grow then file.readRealRec v.name else file.readReal v.name) = none →
      readRealVar file v h =
        ({ h with realH := upd h.realH v.ptr 0 },
         [if v.grow then BCall.readRRec v.name else BCall.readR v.name],
         [⟨"BoutReal", v.name⟩])) ∧
    (∀ (v : VarStr) (h : Heaps),
      (if v.grow then file.readF2Rec v.name else file.readF2 v.name) = none →
      (readF2DVar file v h).1.f2dH v.ptr = ⟨true, 0⟩ ∧
      (readF2DVar file v h).2.2 = [⟨"2D field", v.name⟩]) ∧
    (∀ (v : VarStr) (h : Heaps),
      (if v.grow then file.readF3Rec v.name else file.readF3 v.name) = none →
      (readF3DVar file v h).1.f3dH v.ptr = ⟨true, 0⟩ ∧
      (readF3DVar file v h).2.2 = [⟨"3D field", v.name⟩]) := by
  refine ⟨?_, ?_, ?_, ?_, ?_, ?_⟩
  · simp [Datafile.read, hopen, hvalid]
  · have l1 : ∀ s, ((readLoop (readIntVar file) df.int_arr s).2.1).length =
        1 * df.int_arr.length :=
      fun s => readLoop_len _ 1 (fun v h => by simp [readIntVar_trace]) _ s
    have l2 : ∀ s, ((readLoop (readRealVar file) df.BoutReal_arr s).2.1).length =
        1 * df.BoutReal_arr.length :=
      fun s => readLoop_len _ 1 (fun v h => by simp [readRealVar_trace]) _ s
    have l3 : ∀ s, ((readLoop (readF2DVar file) df.f2d_arr s).2.1).length =
        1 * df.f2d_arr.length :=
      fun s => readLoop_len _ 1 (fun v h => by simp [readF2DVar_trace]) _ s
    have l4 : ∀ s, ((readLoop (readF3DVar file) df.f3d_arr s).2.1).length =
        1 * df.f3d_arr.length :=
      fun s => readLoop_len _ 1 (fun v h => by simp [readF3DVar_trace]) _ s
    have l5 : ∀ s, ((readLoop (readV2DVar file) df.v2d_arr s).2.1).length =
        3 * df.v2d_arr.length :=
      fun s => readLoop_len _ 3 (fun v h => by simp [readV2DVar_trace]) _ s
    have l6 : ∀ s, ((readLoop (readV3DVar file) df.v3d_arr s).2.1).length =
        3 * df.v3d_arr.length :=
      fun s => readLoop_len _ 3 (fun v h => by simp [readV3DVar_trace]) _ s
    simp [Datafile.read, hopen, hvalid, l1, l2, l3, l4, l5, l6]
    omega
  · intro v h hnone
    cases hg : v.grow <;> simp [hg] at hnone <;> simp [readIntVar, hg, hnone]
  · intro v h hnone
    cases hg : v.grow <;> simp [hg] at hnone <;> simp [readRealVar, hg, hnone]
  · intro v h hnone
    cases hg : v.grow <;> simp [hg] at hnone <;>
      simp [readF2DVar, read_f2d, hg, hnone, upd]
  · intro v h hnone
    cases hg : v.grow <;> simp [hg] at hnone <;>
      simp [readF3DVar, read_f3d, hg, hnone, upd]

/-- Witness for C1: the accepting backend whose reads all fail, on a
registry with one integer binding: the overall status is 0 and the one
binding is attempted. -/
theorem read_failure_policy_witness :
    bOpen.openr_ok "dump" = true ∧ bOpen.valid = true ∧
    (dfA.read bOpen (some "dump") st0).1 = 0 ∧
    ((dfA.read bOpen (some "dump") st0).2.2.1).length =
      3 + (dfA.int_arr.length + dfA.BoutReal_arr.length + dfA.f2d_arr.length +
        dfA.f3d_arr.length + 3 * dfA.v2d_arr.length +
        3 * dfA.v3d_arr.length) + 1 :=
  ⟨rfl, rfl, (read_failure_policy dfA bOpen "dump" st0 rfl rfl).1,
   (read_failure_policy dfA bOpen "dump" st0 rfl rfl).2.1⟩

/-- C7: `read` never consults the process-wide enabled flag (the flag is
not even an input of the model of `read`): for every value of the flag and
every non-null path the first backend primitive invoked is the open-read
call, and once open and validity succeed the full transfer runs, down to
the closing call. -/
theorem read_ignores_enabled (enabled : Bool) (df : Datafile)
    (file : DataFormat) (filename : String) (st : Heaps) :
    ((df.read file (some filename) st).2.2.1).head? =
      some (BCall.openr filename) ∧
    (file.openr_ok filename = true → file.valid = true →
      BCall.close ∈ (df.read file (some filename) st).2.2.1) := by
  constructor
  · cases ho : file.openr_ok filename <;> cases hv : file.valid <;>
      simp [Datafile.read, ho, hv]
  · intro ho hv
    simp [Datafile.read, ho, hv]

/-- Witness for C7: both values of the enabled flag on the accepting
backend; the transfer runs to the closing call. -/
theorem read_ignores_enabled_witness :
    bOpen.openr_ok "f" = true ∧ bOpen.valid = true ∧
    BCall.close ∈ (df0.read bOpen (some "f") st0).2.2.1 ∧
    ((df0.read bOpen (some "f") st0).2.2.1).head? = some (BCall.openr "f") :=
  ⟨rfl, rfl, (read_ignores_enabled true df0 bOpen "f" st0).2 rfl rfl,
   (read_ignores_enabled false df0 bOpen "f" st0).1⟩

end BoutDatafile
